import Mathlib

/-!
Shallow embedding of src/utils/webfaction.py, a Python 2 XML-RPC client
wrapper class WebFactionBase.  Each method is modelled as a Lean function
from the client state, a remote oracle and the method arguments to an
Outcome: the (possibly updated) client state, the Python return value or
the propagated exception, the list of remote procedure calls issued and
the list of log events emitted.  The remote oracle maps a procedure name
and an argument list to either an XML-RPC value or an xmlrpclib Fault.
-/

/-- XML-RPC values: what the remote endpoint can return.  (Doubles, dates
and binary payloads never appear in this client and are omitted.) -/
inductive RpcValue where
  | vstr : String → RpcValue
  | vint : Int → RpcValue
  | vbool : Bool → RpcValue
  | vlist : List RpcValue → RpcValue
  | vdict : List (String × RpcValue) → RpcValue

/-- xmlrpclib.Fault: the exception raised when the server signals a fault. -/
structure Fault where
  faultCode : Int
  faultString : String
deriving DecidableEq

/-- The value object WebFactionDBUser (src/utils/webfaction.py lines 21-26). -/
structure WebFactionDBUser where
  username : String
  password : String
  db_type : String
deriving DecidableEq

/-- Python values a wrapper method can return: an XML-RPC value obtained from
the remote, a WebFactionDBUser object, or None. -/
inductive PyVal where
  | rpc : RpcValue → PyVal
  | dbUser : WebFactionDBUser → PyVal
  | pynone : PyVal

/-- The Python constant False, the falsy sentinel the wrappers return. -/
def pyFalse : PyVal := .rpc (.vbool false)

/-- Python exceptions this code can raise or propagate. -/
inductive PyExc where
  | fault : Fault → PyExc
  | valueError : String → PyExc
  | exn : String → PyExc
  | keyError : String → PyExc
  | typeError : String → PyExc
  | notImplementedError : String → PyExc

/-- A remote procedure call issued through the xmlrpclib ServerProxy. -/
structure RpcCall where
  procedure : String
  args : List PyVal

/-- Log events emitted through the structlog logger.  Only the message text
is kept; extra keyword fields of the source calls are folded into it. -/
inductive LogEvent where
  | debug : String → LogEvent
  | exception : String → LogEvent
  | error : String → LogEvent
deriving DecidableEq

def API_URL : String := "https://api.webfaction.com"

/-- The instance attributes of WebFactionBase.  `server` records the URL the
ServerProxy created by login points at (None before login runs). -/
structure ClientState where
  session_id : Option RpcValue
  server : Option String
  username : String
  password : String
  target_server : String
  api_version : Int
  valid_db_types : List String
  valid_addons : List String
  valid_shells : List String

/-- The behaviour of the remote endpoint: procedure name and arguments to
either a result value or a Fault. -/
def Remote := String → List PyVal → Except Fault RpcValue

/-- Result of running one method: new attribute state, Python return value or
propagated exception, remote calls issued, log events emitted. -/
structure Outcome where
  state : ClientState
  result : Except PyExc PyVal
  calls : List RpcCall
  logs : List LogEvent

/-- The value of self.session_id as passed to remote calls. -/
def sessionVal (st : ClientState) : PyVal :=
  match st.session_id with
  | some v => .rpc v
  | none => .pynone

/-- Arguments of the remote login call (src lines 86-88). -/
def loginArgs (st : ClientState) : List PyVal :=
  [.rpc (.vstr st.username), .rpc (.vstr st.password),
   .rpc (.vstr st.target_server), .rpc (.vint st.api_version)]

/-- login (src lines 77-93): creates the ServerProxy, calls the remote login
procedure with username, password, target_server, api_version, and unpacks
the result into session_id and an account struct.  There is no try/except
here: a Fault propagates.  Unpacking a non-pair raises
(ValueError/TypeError, as Python sequence unpacking does). -/
def login (st : ClientState) (srv : Remote) : Outcome :=
  let st1 := { st with server := some API_URL }
  match srv "login" (loginArgs st1) with
  | .ok result =>
    match result with
    | .vlist [sid, _account] =>
        { state := { st1 with session_id := some sid },
          result := .ok .pynone,
          calls := [⟨"login", loginArgs st1⟩],
          logs := [.debug "session ID and account"] }
    | .vlist _ =>
        { state := st1, result := .error (.valueError "unpacking mismatch"),
          calls := [⟨"login", loginArgs st1⟩], logs := [] }
    | _ =>
        { state := st1, result := .error (.typeError "cannot unpack non-sequence"),
          calls := [⟨"login", loginArgs st1⟩], logs := [] }
  | .error f =>
      { state := st1, result := .error (.fault f),
        calls := [⟨"login", loginArgs st1⟩], logs := [] }

/-- system (src lines 95-114): one remote system call; prints the result and
falls through, so it returns None on success.  On Fault the handler
evaluates the string
  "Error running system command \x7bcommand\x7d".format(commad=cmd)
whose keyword is misspelled, so str.format raises KeyError for the unmatched
placeholder before logger.exception runs: the KeyError propagates, nothing
is logged and False is not returned. -/
def system (st : ClientState) (srv : Remote) (cmd : String) : Outcome :=
  let args := [sessionVal st, .rpc (.vstr cmd)]
  match srv "system" args with
  | .ok _result =>
      { state := st, result := .ok .pynone,
        calls := [⟨"system", args⟩], logs := [] }
  | .error _f =>
      { state := st, result := .error (.keyError "command"),
        calls := [⟨"system", args⟩], logs := [] }

/-- The operations dict of account_stats (src lines 144-154): user-facing
action name to remote procedure name. -/
def accountStatsOperations : List (String × String) :=
  [("disk", "list_disk_usage"),
   ("bandwidth", "list_bandwidth_usage"),
   ("apps", "list_apps"),
   ("dbs", "list_dbs"),
   ("db_users", "list_db_users"),
   ("mailboxes", "list_mailboxes"),
   ("users", "list_users"),
   ("ips", "list_ips"),
   ("machines", "list_machines")]

/-- account_stats (src lines 116-172): validates the action against the
dispatch dict (raising a plain Exception otherwise), issues the selected
remote call with the session id as the only argument, returns the result,
and on Fault logs an exception and returns False. -/
def account_stats (st : ClientState) (srv : Remote) (action : String) : Outcome :=
  match List.lookup action accountStatsOperations with
  | none =>
      { state := st,
        result := .error (.exn ("Method " ++ action ++ " not implemented")),
        calls := [], logs := [] }
  | some proc =>
    match srv proc [sessionVal st] with
    | .ok result =>
        { state := st, result := .ok (.rpc result),
          calls := [⟨proc, [sessionVal st]⟩], logs := [.debug action] }
    | .error _f =>
        { state := st, result := .ok pyFalse,
          calls := [⟨proc, [sessionVal st]⟩],
          logs := [.exception "operation failed"] }

/-- Arguments of the remote create_mailbox call (src lines 207-210). -/
def createMailboxArgs (st : ClientState) (mailbox : String)
    (enable_spam_protection discard_spam : Bool)
    (spam_redirect_folder : String) (use_manual_procmailrc : Bool)
    (manual_procmailrc : String) : List PyVal :=
  [sessionVal st, .rpc (.vstr mailbox), .rpc (.vbool enable_spam_protection),
   .rpc (.vbool discard_spam), .rpc (.vstr spam_redirect_folder),
   .rpc (.vbool use_manual_procmailrc), .rpc (.vstr manual_procmailrc)]

/-- create_mailbox (src lines 174-224): rejects a truthy use_manual_procmailrc
with an empty manual_procmailrc before calling; on success logs a debug
event, prints the password field of the result struct (subscripting raises
KeyError when 'password' is absent, TypeError on a non-struct) and falls
through, returning None; on Fault logs an exception and returns False. -/
def create_mailbox (st : ClientState) (srv : Remote) (mailbox : String)
    (enable_spam_protection discard_spam : Bool)
    (spam_redirect_folder : String) (use_manual_procmailrc : Bool)
    (manual_procmailrc : String) : Outcome :=
  if use_manual_procmailrc && manual_procmailrc == "" then
    { state := st,
      result := .error (.valueError "manual_procmailrc cannot be empty"),
      calls := [], logs := [] }
  else
    let args := createMailboxArgs st mailbox enable_spam_protection
      discard_spam spam_redirect_folder use_manual_procmailrc manual_procmailrc
    match srv "create_mailbox" args with
    | .ok result =>
      match result with
      | .vdict kvs =>
        match List.lookup "password" kvs with
        | some _pw =>
            { state := st, result := .ok .pynone,
              calls := [⟨"create_mailbox", args⟩], logs := [.debug "create_mailbox"] }
        | none =>
            { state := st, result := .error (.keyError "password"),
              calls := [⟨"create_mailbox", args⟩], logs := [.debug "create_mailbox"] }
      | _ =>
          { state := st, result := .error (.typeError "result is not subscriptable"),
            calls := [⟨"create_mailbox", args⟩], logs := [.debug "create_mailbox"] }
    | .error _f =>
        { state := st, result := .ok pyFalse,
          calls := [⟨"create_mailbox", args⟩],
          logs := [.exception ("Could not create mailbox " ++ mailbox)] }

/-- delete_mailbox (src lines 226-249): one remote delete_mailbox call,
returning the result, or logging and returning False on Fault. -/
def delete_mailbox (st : ClientState) (srv : Remote) (mailbox : String) : Outcome :=
  let args := [sessionVal st, .rpc (.vstr mailbox)]
  match srv "delete_mailbox" args with
  | .ok result =>
      { state := st, result := .ok (.rpc result),
        calls := [⟨"delete_mailbox", args⟩], logs := [.debug "delete_mailbox"] }
  | .error _f =>
      { state := st, result := .ok pyFalse,
        calls := [⟨"delete_mailbox", args⟩],
        logs := [.exception ("could not delete mailbox " ++ mailbox)] }

/-- The first definition of create_db_user in the class body (src lines
251-306): password-strength gate (passwordmeter is an external library,
abstracted as the predicate passwordWeak, true when its strength is below
0.5), db_type validation, then a remote create_db_user call; on success it
returns a locally constructed WebFactionDBUser.  This definition is
shadowed by the later one at src line 542 and is unreachable through the
class attribute. -/
def create_db_user_first (st : ClientState) (srv : Remote)
    (passwordWeak : String → Bool) (username password db_type : String)
    (enforce_password_strength : Bool) : Outcome :=
  if enforce_password_strength && passwordWeak password then
    { state := st, result := .error (.valueError "Your password is weak"),
      calls := [], logs := [] }
  else if !(st.valid_db_types.contains db_type) then
    { state := st,
      result := .error (.valueError
        ("db type should be either: " ++ String.intercalate ", " st.valid_db_types)),
      calls := [], logs := [] }
  else
    let args := [sessionVal st, .rpc (.vstr username), .rpc (.vstr password),
                 .rpc (.vstr db_type)]
    match srv "create_db_user" args with
    | .ok _result =>
        { state := st,
          result := .ok (.dbUser ⟨username, password, db_type⟩),
          calls := [⟨"create_db_user", args⟩], logs := [.debug "create_db_user"] }
    | .error _f =>
        { state := st, result := .ok pyFalse,
          calls := [⟨"create_db_user", args⟩],
          logs := [.exception ("Could not create DB user " ++ username)] }

/-- change_db_user_password (src lines 308-362): same shape as the first
create_db_user definition, calling the remote change_db_user_password
procedure and returning a locally constructed WebFactionDBUser on success. -/
def change_db_user_password (st : ClientState) (srv : Remote)
    (passwordWeak : String → Bool) (username password db_type : String)
    (enforce_password_strength : Bool) : Outcome :=
  if enforce_password_strength && passwordWeak password then
    { state := st, result := .error (.valueError "Your password is weak"),
      calls := [], logs := [] }
  else if !(st.valid_db_types.contains db_type) then
    { state := st,
      result := .error (.valueError
        ("db type should be either: " ++ String.intercalate ", " st.valid_db_types)),
      calls := [], logs := [] }
  else
    let args := [sessionVal st, .rpc (.vstr username), .rpc (.vstr password),
                 .rpc (.vstr db_type)]
    match srv "change_db_user_password" args with
    | .ok _result =>
        { state := st,
          result := .ok (.dbUser ⟨username, password, db_type⟩),
          calls := [⟨"change_db_user_password", args⟩],
          logs := [.debug "change_db_user_password"] }
    | .error _f =>
        { state := st, result := .ok pyFalse,
          calls := [⟨"change_db_user_password", args⟩],
          logs := [.exception ("Could not change password for DB user " ++ username)] }

/-- delete_db_user (src lines 364-401): db_type validation, then one remote
delete_db_user call returning the result, or False on Fault. -/
def delete_db_user (st : ClientState) (srv : Remote)
    (username db_type : String) : Outcome :=
  if !(st.valid_db_types.contains db_type) then
    { state := st,
      result := .error (.valueError
        ("db type should be either: " ++ String.intercalate ", " st.valid_db_types)),
      calls := [], logs := [] }
  else
    let args := [sessionVal st, .rpc (.vstr username), .rpc (.vstr db_type)]
    match srv "delete_db_user" args with
    | .ok result =>
        { state := st, result := .ok (.rpc result),
          calls := [⟨"delete_db_user", args⟩], logs := [.debug "delete_dbuser"] }
    | .error _f =>
        { state := st, result := .ok pyFalse,
          calls := [⟨"delete_db_user", args⟩],
          logs := [.exception ("could not delete DB user " ++ username)] }

/-- delete_db (src lines 403-440): db_type validation, then one remote
delete_db call returning the result, or False on Fault. -/
def delete_db (st : ClientState) (srv : Remote)
    (dbname db_type : String) : Outcome :=
  if !(st.valid_db_types.contains db_type) then
    { state := st,
      result := .error (.valueError
        ("db type should be either: " ++ String.intercalate ", " st.valid_db_types)),
      calls := [], logs := [] }
  else
    let args := [sessionVal st, .rpc (.vstr dbname), .rpc (.vstr db_type)]
    match srv "delete_db" args with
    | .ok result =>
        { state := st, result := .ok (.rpc result),
          calls := [⟨"delete_db", args⟩], logs := [.debug "delete_db"] }
    | .error _f =>
        { state := st, result := .ok pyFalse,
          calls := [⟨"delete_db", args⟩],
          logs := [.exception ("could not delete DB " ++ dbname)] }

/-- enable_addon (src lines 442-478): addon validation, then one remote
enable_addon call whose db-type argument is the string literal
postgresql regardless of the method arguments (src line 467). -/
def enable_addon (st : ClientState) (srv : Remote)
    (dbname addon : String) : Outcome :=
  if !(st.valid_addons.contains addon) then
    { state := st,
      result := .error (.valueError
        ("addon should be either: " ++ String.intercalate ", " st.valid_addons)),
      calls := [], logs := [] }
  else
    let args := [sessionVal st, .rpc (.vstr dbname), .rpc (.vstr "postgresql"),
                 .rpc (.vstr addon)]
    match srv "enable_addon" args with
    | .ok result =>
        { state := st, result := .ok (.rpc result),
          calls := [⟨"enable_addon", args⟩], logs := [.debug "enable_addon"] }
    | .error _f =>
        { state := st, result := .ok pyFalse,
          calls := [⟨"enable_addon", args⟩],
          logs := [.exception ("could not enable addon " ++ addon ++ " on DB " ++ dbname)] }

/-- The operations dict of manage_db (src lines 499-503). -/
def manageDbOperations : List (String × String) :=
  [("make_owner", "make_user_owner_of_db"),
   ("grant_perm", "grant_db_permissions"),
   ("revoke_perm", "revoke_db_permissions")]

/-- manage_db (src lines 480-540): builds the dispatch dict (attribute access
on the ServerProxy issues no network call), validates db_type then the
action, and issues the selected remote call with session id, username,
database and db_type. -/
def manage_db (st : ClientState) (srv : Remote)
    (username database db_type action : String) : Outcome :=
  if !(st.valid_db_types.contains db_type) then
    { state := st,
      result := .error (.valueError
        ("db type should be either: " ++ String.intercalate ", " st.valid_db_types)),
      calls := [], logs := [] }
  else
    match List.lookup action manageDbOperations with
    | none =>
        { state := st,
          result := .error (.exn ("DB method " ++ action ++ " not implemented")),
          calls := [], logs := [] }
    | some proc =>
      let args := [sessionVal st, .rpc (.vstr username), .rpc (.vstr database),
                   .rpc (.vstr db_type)]
      match srv proc args with
      | .ok result =>
          { state := st, result := .ok (.rpc result),
            calls := [⟨proc, args⟩], logs := [.debug action] }
      | .error _f =>
          { state := st, result := .ok pyFalse,
            calls := [⟨proc, args⟩],
            logs := [.exception ("operation against the user " ++ username ++
              " on DB " ++ database ++ " failed")] }

/-- The second definition of create_db_user in the class body (src lines
542-579): the shell-user creator.  Because it is defined later in the same
class body, it is the definition the attribute create_db_user resolves to.
It validates the shell and issues one remote create_user call, returning
its result, or False on Fault. -/
def create_db_user (st : ClientState) (srv : Remote)
    (username shell : String) (groups : List String) : Outcome :=
  if !(st.valid_shells.contains shell) then
    { state := st,
      result := .error (.valueError
        ("shell should be either: " ++ String.intercalate ", " st.valid_shells)),
      calls := [], logs := [] }
  else
    let args := [sessionVal st, .rpc (.vstr username), .rpc (.vstr shell),
                 .rpc (.vlist (groups.map RpcValue.vstr))]
    match srv "create_user" args with
    | .ok result =>
        { state := st, result := .ok (.rpc result),
          calls := [⟨"create_user", args⟩], logs := [.debug "create_user"] }
    | .error _f =>
        { state := st, result := .ok pyFalse,
          calls := [⟨"create_user", args⟩],
          logs := [.exception ("Could not create user " ++ username)] }

/-- delete_user (src lines 581-603): one remote delete_user call returning
the result, or False on Fault. -/
def delete_user (st : ClientState) (srv : Remote) (username : String) : Outcome :=
  let args := [sessionVal st, .rpc (.vstr username)]
  match srv "delete_user" args with
  | .ok result =>
      { state := st, result := .ok (.rpc result),
        calls := [⟨"delete_user", args⟩], logs := [.debug "delete_user"] }
  | .error _f =>
      { state := st, result := .ok pyFalse,
        calls := [⟨"delete_user", args⟩],
        logs := [.exception ("could not delete user " ++ username)] }

/-- The configuration environment: the contents (username, password, server)
of the file at USER_CONFIG, or none when the file does not exist. -/
def ConfigFile := Option (String × String × String)

/-- get_config (src lines 56-75): raises NotImplementedError when the file at
USER_CONFIG does not exist, otherwise returns the configured username,
password and target server. -/
def get_config (cfg : ConfigFile) : Except PyExc (String × String × String) :=
  match cfg with
  | none => .error (.notImplementedError
      "Set your target server, username and password in the config file")
  | some creds => .ok creds

/-- Python 2 exception matching for the clause at src line 40, which reads
except NotImplemented: its catch object is the NotImplemented singleton,
not an exception class, so the interpreter compares the raised exception
against it by identity.  No raised exception is that singleton, hence the
clause matches nothing: in particular the NotImplementedError raised by
get_config is not caught. -/
def exceptClauseNotImplementedMatches : PyExc → Bool :=
  fun _ => false

/-- Outcome of WebFactionBase.__init__: the constructed attribute state, or
the exception that escaped the constructor. -/
structure InitOutcome where
  result : Except PyExc ClientState
  calls : List RpcCall
  logs : List LogEvent

/-- The attribute state assembled by __init__ just before self.login() runs,
with the effective credentials (src lines 31-53). -/
def initialState (u p t : String) : ClientState :=
  { session_id := none, server := none,
    username := u, password := p, target_server := t,
    api_version := 2,
    valid_db_types := ["mysql", "postgresql"],
    valid_addons := ["tsearch", "postgis"],
    valid_shells := ["none", "bash", "sh", "ksh", "csh", "tcsh"] }

/-- The tail of __init__ after credential resolution: set username, password,
target_server, api_version, then call self.login() (src lines 50-54). -/
def initFinish (srv : Remote) (u p t : String) : InitOutcome :=
  let o := login (initialState u p t) srv
  match o.result with
  | .ok _ => { result := .ok o.state, calls := o.calls, logs := o.logs }
  | .error e => { result := .error e, calls := o.calls, logs := o.logs }

/-- WebFactionBase.__init__ (src lines 30-54): when any of username, password
or target_server is empty (Python falsiness of the strings), it tries
get_config.  The except clause at src line 40 names NotImplemented, which
never matches the raised NotImplementedError (see
exceptClauseNotImplementedMatches), so on a missing config file the
exception propagates, the config_error branch is dead, and login is never
reached.  Otherwise the resolved credentials are stored and login runs. -/
def WebFactionBase_init (cfg : ConfigFile) (srv : Remote)
    (username password target_server : String) : InitOutcome :=
  if username == "" || password == "" || target_server == "" then
    match get_config cfg with
    | .ok (u, p, t) => initFinish srv u p t
    | .error e =>
      if exceptClauseNotImplementedMatches e then
        -- dead branch mirroring the source handler: log config_error and
        -- continue with the original (incomplete) credentials
        let o := initFinish srv username password target_server
        { result := o.result, calls := o.calls,
          logs := .error "config_error" :: o.logs }
      else
        { result := .error e, calls := [], logs := [] }
  else
    initFinish srv username password target_server

/-- Tags for the method definitions evaluated in the class body of
WebFactionBase, in source order.  The two class-body definitions named
create_db_user get distinct tags. -/
inductive MethodDef where
  | mInit
  | mGetConfig
  | mLogin
  | mSystem
  | mAccountStats
  | mCreateMailbox
  | mDeleteMailbox
  | mCreateDbUserDb
  | mChangeDbUserPassword
  | mDeleteDbUser
  | mDeleteDb
  | mEnableAddon
  | mManageDb
  | mCreateDbUserShell
  | mDeleteUser
deriving DecidableEq

/-- The class body of WebFactionBase as the ordered sequence of (name,
definition) bindings Python executes (src lines 30-603).  The name
create_db_user is bound twice: at src line 251 to the DB-user creator and
at src line 542 to the shell-user creator. -/
def classBodyDefs : List (String × MethodDef) :=
  [("__init__", .mInit),
   ("get_config", .mGetConfig),
   ("login", .mLogin),
   ("system", .mSystem),
   ("account_stats", .mAccountStats),
   ("create_mailbox", .mCreateMailbox),
   ("delete_mailbox", .mDeleteMailbox),
   ("create_db_user", .mCreateDbUserDb),
   ("change_db_user_password", .mChangeDbUserPassword),
   ("delete_db_user", .mDeleteDbUser),
   ("delete_db", .mDeleteDb),
   ("enable_addon", .mEnableAddon),
   ("manage_db", .mManageDb),
   ("create_db_user", .mCreateDbUserShell),
   ("delete_user", .mDeleteUser)]

/-- Python class-body evaluation: each def statement stores its function
under its name in the class dict, a later binding overwriting an earlier
one with the same name. -/
def buildClassDict (defs : List (String × MethodDef)) : String → Option MethodDef :=
  defs.foldl (fun d nm => fun k => if k = nm.1 then some nm.2 else d k)
    (fun _ => none)

/-! Concrete fixtures used to evaluate the definitions on closed inputs. -/

/-- A client state as produced by a successful construction. -/
def exState : ClientState :=
  { session_id := some (.vstr "sess"), server := some API_URL,
    username := "alice", password := "pw123", target_server := "Web100",
    api_version := 2,
    valid_db_types := ["mysql", "postgresql"],
    valid_addons := ["tsearch", "postgis"],
    valid_shells := ["none", "bash", "sh", "ksh", "csh", "tcsh"] }

def exFault : Fault := ⟨1, "boom"⟩

/-- A remote endpoint that raises a Fault on every call. -/
def faultRemote : Remote := fun _ _ => .error exFault

/-- A remote endpoint that returns the string value token on every call. -/
def okRemote : Remote := fun _ _ => .ok (.vstr "token")

/-- A remote endpoint whose every call returns a two-element list, as a
successful login does. -/
def loginOkRemote : Remote := fun _ _ => .ok (.vlist [.vstr "sess", .vdict []])

/-- A passwordmeter abstraction that classifies no password as weak. -/
def neverWeak : String → Bool := fun _ => false

/-- C10: enable_addon either issues no call (addon validation failed) or
issues exactly the remote enable_addon call whose database-type argument is
the string literal postgresql, whatever the arguments were; in particular
no call carries mysql in that position. -/
theorem C10_enable_addon_hardcodes_postgresql (st : ClientState) (srv : Remote)
    (dbname addon : String) :
    (enable_addon st srv dbname addon).calls = [] ∨
    (enable_addon st srv dbname addon).calls =
      [⟨"enable_addon", [sessionVal st, .rpc (.vstr dbname),
        .rpc (.vstr "postgresql"), .rpc (.vstr addon)]⟩] := by
  simp only [enable_addon]
  split
  · exact Or.inl rfl
  · split <;> exact Or.inr rfl

/-- C7: every wrapper method leaves all attributes of the client object
unchanged, whether the call succeeds, the remote faults, or validation
raises: the resulting state equals the input state. -/
theorem C7_wrappers_preserve_state :
    (∀ st srv cmd, (system st srv cmd).state = st) ∧
    (∀ st srv action, (account_stats st srv action).state = st) ∧
    (∀ st srv mailbox esp ds srf ump mp,
      (create_mailbox st srv mailbox esp ds srf ump mp).state = st) ∧
    (∀ st srv mailbox, (delete_mailbox st srv mailbox).state = st) ∧
    (∀ st srv pw u p t e, (create_db_user_first st srv pw u p t e).state = st) ∧
    (∀ st srv pw u p t e, (change_db_user_password st srv pw u p t e).state = st) ∧
    (∀ st srv u t, (delete_db_user st srv u t).state = st) ∧
    (∀ st srv d t, (delete_db st srv d t).state = st) ∧
    (∀ st srv d a, (enable_addon st srv d a).state = st) ∧
    (∀ st srv u d t a, (manage_db st srv u d t a).state = st) ∧
    (∀ st srv u s g, (create_db_user st srv u s g).state = st) ∧
    (∀ st srv u, (delete_user st srv u).state = st) := by
  refine ⟨?_, ?_, ?_, ?_, ?_, ?_, ?_, ?_, ?_, ?_, ?_, ?_⟩ <;>
    intros <;> simp only [system, account_stats, create_mailbox, delete_mailbox,
      create_db_user_first, change_db_user_password, delete_db_user, delete_db,
      enable_addon, manage_db, create_db_user, delete_user] <;>
    (repeat' split) <;> rfl

/-- C2: the class body binds create_db_user twice and the second (shell-user)
definition shadows the first, so the attribute resolves to the shell-user
creator; invoking it never invokes the remote create_db_user procedure and
never returns a WebFactionDBUser object. -/
theorem C2_create_db_user_shadowed :
    buildClassDict classBodyDefs "create_db_user" = some MethodDef.mCreateDbUserShell ∧
    (∀ st srv username shell groups,
      (∀ u, (create_db_user st srv username shell groups).result ≠
        .ok (.dbUser u)) ∧
      (∀ c, c ∈ (create_db_user st srv username shell groups).calls →
        c.procedure ≠ "create_db_user")) := by
  constructor
  · rfl
  · intro st srv username shell groups
    constructor
    · intro u
      simp only [create_db_user]
      split
      · simp
      · split <;> simp [pyFalse]
    · intro c hc
      simp only [create_db_user] at hc
      split at hc
      · simp at hc
      · split at hc <;> simp at hc <;> simp [hc]

def exCreateUserCall : RpcCall :=
  ⟨"create_user", [sessionVal exState, .rpc (.vstr "bob"), .rpc (.vstr "bash"),
    .rpc (.vlist [])]⟩

/-- Witness for C2 at a concrete shell-user creation. -/
theorem C2_create_db_user_shadowed_witness :
    (create_db_user exState okRemote "bob" "bash" []).result ≠
      .ok (.dbUser ⟨"bob", "pw", "mysql"⟩) ∧
    exCreateUserCall.procedure ≠ "create_db_user" := by
  refine ⟨(C2_create_db_user_shadowed.2 exState okRemote "bob" "bash" []).1 _,
    (C2_create_db_user_shadowed.2 exState okRemote "bob" "bash" []).2
      exCreateUserCall ?_⟩
  show exCreateUserCall ∈ (create_db_user exState okRemote "bob" "bash" []).calls
  simp [create_db_user, exState, okRemote, exCreateUserCall, sessionVal]

/-- C5: every remote procedure call issued by a wrapper method carries the
stored session token self.session_id as its first argument. -/
theorem C5_session_token_first_argument :
    (∀ st srv cmd c, c ∈ (system st srv cmd).calls →
      c.args.head? = some (sessionVal st)) ∧
    (∀ st srv action c, c ∈ (account_stats st srv action).calls →
      c.args.head? = some (sessionVal st)) ∧
    (∀ st srv mailbox esp ds srf ump mp c,
      c ∈ (create_mailbox st srv mailbox esp ds srf ump mp).calls →
      c.args.head? = some (sessionVal st)) ∧
    (∀ st srv mailbox c, c ∈ (delete_mailbox st srv mailbox).calls →
      c.args.head? = some (sessionVal st)) ∧
    (∀ st srv pw u p t e c, c ∈ (create_db_user_first st srv pw u p t e).calls →
      c.args.head? = some (sessionVal st)) ∧
    (∀ st srv pw u p t e c, c ∈ (change_db_user_password st srv pw u p t e).calls →
      c.args.head? = some (sessionVal st)) ∧
    (∀ st srv u t c, c ∈ (delete_db_user st srv u t).calls →
      c.args.head? = some (sessionVal st)) ∧
    (∀ st srv d t c, c ∈ (delete_db st srv d t).calls →
      c.args.head? = some (sessionVal st)) ∧
    (∀ st srv d a c, c ∈ (enable_addon st srv d a).calls →
      c.args.head? = some (sessionVal st)) ∧
    (∀ st srv u d t a c, c ∈ (manage_db st srv u d t a).calls →
      c.args.head? = some (sessionVal st)) ∧
    (∀ st srv u s g c, c ∈ (create_db_user st srv u s g).calls →
      c.args.head? = some (sessionVal st)) ∧
    (∀ st srv u c, c ∈ (delete_user st srv u).calls →
      c.args.head? = some (sessionVal st)) := by
  refine ⟨?_, ?_, ?_, ?_, ?_, ?_, ?_, ?_, ?_, ?_, ?_, ?_⟩ <;>
    intros <;> rename_i c hc <;>
    simp only [system, account_stats, create_mailbox, delete_mailbox,
      create_db_user_first, change_db_user_password, delete_db_user, delete_db,
      enable_addon, manage_db, create_db_user, delete_user,
      createMailboxArgs] at hc <;>
    (repeat' split at hc) <;> simp at hc <;> subst hc <;> rfl

/-- Witness for C5 at concrete calls of delete_user and account_stats. -/
theorem C5_session_token_first_argument_witness :
    (RpcCall.args ⟨"delete_user", [sessionVal exState, .rpc (.vstr "bob")]⟩).head?
      = some (sessionVal exState) ∧
    (RpcCall.args ⟨"list_disk_usage", [sessionVal exState]⟩).head?
      = some (sessionVal exState) := by
  constructor
  · refine C5_session_token_first_argument.2.2.2.2.2.2.2.2.2.2.2
      exState okRemote "bob" _ ?_
    show _ ∈ (delete_user exState okRemote "bob").calls
    simp [delete_user, okRemote, exState, sessionVal]
  · refine C5_session_token_first_argument.2.1 exState okRemote "disk" _ ?_
    show _ ∈ (account_stats exState okRemote "disk").calls
    simp [account_stats, okRemote, exState, sessionVal, accountStatsOperations,
      List.lookup]

/-- An invocation rejected by argument validation: it raises a ValueError or
a plain Exception and issues no remote procedure call. -/
def raisesValidationError (o : Outcome) : Prop :=
  (∃ m, o.result = .error (.valueError m) ∨ o.result = .error (.exn m)) ∧
  o.calls = []

/-- C6: whenever a wrapper method rejects its arguments (unknown
account_stats action, truthy use_manual_procmailrc with empty
manual_procmailrc, db_type outside the valid db types, addon outside the
valid addons, unknown manage_db action, shell outside the valid shells),
it raises a ValueError or Exception and no remote call is issued. -/
theorem C6_validation_before_remote_call :
    (∀ st srv action, List.lookup action accountStatsOperations = none →
      raisesValidationError (account_stats st srv action)) ∧
    (∀ st srv mailbox esp ds srf mp, mp = "" →
      raisesValidationError (create_mailbox st srv mailbox esp ds srf true mp)) ∧
    (∀ st srv pw u p t e, t ∉ st.valid_db_types →
      raisesValidationError (create_db_user_first st srv pw u p t e)) ∧
    (∀ st srv pw u p t e, t ∉ st.valid_db_types →
      raisesValidationError (change_db_user_password st srv pw u p t e)) ∧
    (∀ st srv u t, t ∉ st.valid_db_types →
      raisesValidationError (delete_db_user st srv u t)) ∧
    (∀ st srv d t, t ∉ st.valid_db_types →
      raisesValidationError (delete_db st srv d t)) ∧
    (∀ st srv d a, a ∉ st.valid_addons →
      raisesValidationError (enable_addon st srv d a)) ∧
    (∀ st srv u d t a, t ∉ st.valid_db_types →
      raisesValidationError (manage_db st srv u d t a)) ∧
    (∀ st srv u d t a, List.lookup a manageDbOperations = none →
      raisesValidationError (manage_db st srv u d t a)) ∧
    (∀ st srv u s g, s ∉ st.valid_shells →
      raisesValidationError (create_db_user st srv u s g)) := by
  refine ⟨?_, ?_, ?_, ?_, ?_, ?_, ?_, ?_, ?_, ?_⟩
  · intro st srv action h
    simp [raisesValidationError, account_stats, h]
  · intro st srv mailbox esp ds srf mp h
    simp [raisesValidationError, create_mailbox, h]
  · intro st srv pw u p t e h
    have hc : st.valid_db_types.contains t = false := by simpa using h
    by_cases hw : (e && pw p) = true <;>
      simp [raisesValidationError, create_db_user_first, hw, hc, h]
  · intro st srv pw u p t e h
    have hc : st.valid_db_types.contains t = false := by simpa using h
    by_cases hw : (e && pw p) = true <;>
      simp [raisesValidationError, change_db_user_password, hw, hc, h]
  · intro st srv u t h
    have hc : st.valid_db_types.contains t = false := by simpa using h
    simp [raisesValidationError, delete_db_user, hc, h]
  · intro st srv d t h
    have hc : st.valid_db_types.contains t = false := by simpa using h
    simp [raisesValidationError, delete_db, hc, h]
  · intro st srv d a h
    have hc : st.valid_addons.contains a = false := by simpa using h
    simp [raisesValidationError, enable_addon, hc, h]
  · intro st srv u d t a h
    have hc : st.valid_db_types.contains t = false := by simpa using h
    simp [raisesValidationError, manage_db, hc, h]
  · intro st srv u d t a h
    by_cases hdb : t ∈ st.valid_db_types <;>
      simp [raisesValidationError, manage_db, hdb, h]
  · intro st srv u s g h
    have hc : st.valid_shells.contains s = false := by simpa using h
    simp [raisesValidationError, create_db_user, hc, h]

/-- Witness for C6 at concrete rejected invocations. -/
theorem C6_validation_before_remote_call_witness :
    raisesValidationError (account_stats exState okRemote "bogus") ∧
    raisesValidationError (create_mailbox exState okRemote "inbox" true false "" true "") ∧
    raisesValidationError (delete_db exState okRemote "mydb" "sqlite") ∧
    raisesValidationError (enable_addon exState okRemote "mydb" "citus") ∧
    raisesValidationError (create_db_user exState okRemote "bob" "zsh" []) := by
  refine ⟨C6_validation_before_remote_call.1 exState okRemote "bogus" rfl,
    (C6_validation_before_remote_call.2.1) exState okRemote "inbox" true false "" "" rfl,
    (C6_validation_before_remote_call.2.2.2.2.2.1) exState okRemote "mydb" "sqlite" ?_,
    (C6_validation_before_remote_call.2.2.2.2.2.2.1) exState okRemote "mydb" "citus" ?_,
    (C6_validation_before_remote_call.2.2.2.2.2.2.2.2.2) exState okRemote "bob" "zsh" [] ?_⟩ <;>
    simp [exState]

/-- C3: no wrapper invocation ever issues more than one remote call, and
whenever the arguments pass validation exactly one remote call is issued,
carrying the session token followed by the method arguments; in particular
a Fault never leads to a second call. -/
theorem C3_exactly_one_remote_call :
    ((∀ st srv cmd, ((system st srv cmd).calls).length ≤ 1) ∧
     (∀ st srv action, ((account_stats st srv action).calls).length ≤ 1) ∧
     (∀ st srv mailbox esp ds srf ump mp,
       ((create_mailbox st srv mailbox esp ds srf ump mp).calls).length ≤ 1) ∧
     (∀ st srv mailbox, ((delete_mailbox st srv mailbox).calls).length ≤ 1) ∧
     (∀ st srv pw u p t e,
       ((create_db_user_first st srv pw u p t e).calls).length ≤ 1) ∧
     (∀ st srv pw u p t e,
       ((change_db_user_password st srv pw u p t e).calls).length ≤ 1) ∧
     (∀ st srv u t, ((delete_db_user st srv u t).calls).length ≤ 1) ∧
     (∀ st srv d t, ((delete_db st srv d t).calls).length ≤ 1) ∧
     (∀ st srv d a, ((enable_addon st srv d a).calls).length ≤ 1) ∧
     (∀ st srv u d t a, ((manage_db st srv u d t a).calls).length ≤ 1) ∧
     (∀ st srv u s g, ((create_db_user st srv u s g).calls).length ≤ 1) ∧
     (∀ st srv u, ((delete_user st srv u).calls).length ≤ 1)) ∧
    ((∀ st srv cmd, (system st srv cmd).calls =
        [⟨"system", [sessionVal st, .rpc (.vstr cmd)]⟩]) ∧
     (∀ st srv action proc, List.lookup action accountStatsOperations = some proc →
       (account_stats st srv action).calls = [⟨proc, [sessionVal st]⟩]) ∧
     (∀ st srv mailbox esp ds srf ump mp, (ump && mp == "") = false →
       (create_mailbox st srv mailbox esp ds srf ump mp).calls =
         [⟨"create_mailbox", createMailboxArgs st mailbox esp ds srf ump mp⟩]) ∧
     (∀ st srv mailbox, (delete_mailbox st srv mailbox).calls =
       [⟨"delete_mailbox", [sessionVal st, .rpc (.vstr mailbox)]⟩]) ∧
     (∀ st srv pw u p t e, (e && pw p) = false → t ∈ st.valid_db_types →
       (create_db_user_first st srv pw u p t e).calls =
         [⟨"create_db_user", [sessionVal st, .rpc (.vstr u), .rpc (.vstr p),
           .rpc (.vstr t)]⟩]) ∧
     (∀ st srv pw u p t e, (e && pw p) = false → t ∈ st.valid_db_types →
       (change_db_user_password st srv pw u p t e).calls =
         [⟨"change_db_user_password", [sessionVal st, .rpc (.vstr u),
           .rpc (.vstr p), .rpc (.vstr t)]⟩]) ∧
     (∀ st srv u t, t ∈ st.valid_db_types →
       (delete_db_user st srv u t).calls =
         [⟨"delete_db_user", [sessionVal st, .rpc (.vstr u), .rpc (.vstr t)]⟩]) ∧
     (∀ st srv d t, t ∈ st.valid_db_types →
       (delete_db st srv d t).calls =
         [⟨"delete_db", [sessionVal st, .rpc (.vstr d), .rpc (.vstr t)]⟩]) ∧
     (∀ st srv d a, a ∈ st.valid_addons →
       (enable_addon st srv d a).calls =
         [⟨"enable_addon", [sessionVal st, .rpc (.vstr d),
           .rpc (.vstr "postgresql"), .rpc (.vstr a)]⟩]) ∧
     (∀ st srv u d t a proc, t ∈ st.valid_db_types →
       List.lookup a manageDbOperations = some proc →
       (manage_db st srv u d t a).calls =
         [⟨proc, [sessionVal st, .rpc (.vstr u), .rpc (.vstr d), .rpc (.vstr t)]⟩]) ∧
     (∀ st srv u s g, s ∈ st.valid_shells →
       (create_db_user st srv u s g).calls =
         [⟨"create_user", [sessionVal st, .rpc (.vstr u), .rpc (.vstr s),
           .rpc (.vlist (g.map RpcValue.vstr))]⟩]) ∧
     (∀ st srv u, (delete_user st srv u).calls =
       [⟨"delete_user", [sessionVal st, .rpc (.vstr u)]⟩])) := by
  constructor
  · refine ⟨?_, ?_, ?_, ?_, ?_, ?_, ?_, ?_, ?_, ?_, ?_, ?_⟩ <;>
      intros <;> simp only [system, account_stats, create_mailbox, delete_mailbox,
        create_db_user_first, change_db_user_password, delete_db_user, delete_db,
        enable_addon, manage_db, create_db_user, delete_user] <;>
      (repeat' split) <;> simp
  · refine ⟨?_, ?_, ?_, ?_, ?_, ?_, ?_, ?_, ?_, ?_, ?_, ?_⟩
    · intro st srv cmd
      simp only [system]
      split <;> rfl
    · intro st srv action proc h
      simp only [account_stats, h]
      split <;> rfl
    · intro st srv mailbox esp ds srf ump mp h
      simp only [create_mailbox, h, Bool.false_eq_true, if_false]
      (repeat' split) <;> rfl
    · intro st srv mailbox
      simp only [delete_mailbox]
      split <;> rfl
    · intro st srv pw u p t e hw ht
      simp [create_db_user_first, hw, ht]
      split <;> simp
    · intro st srv pw u p t e hw ht
      simp [change_db_user_password, hw, ht]
      split <;> simp
    · intro st srv u t ht
      simp [delete_db_user, ht]
      split <;> simp
    · intro st srv d t ht
      simp [delete_db, ht]
      split <;> simp
    · intro st srv d a ha
      simp [enable_addon, ha]
      split <;> simp
    · intro st srv u d t a proc ht h
      simp [manage_db, ht, h]
      split <;> simp
    · intro st srv u s g hs
      simp [create_db_user, hs]
      split <;> simp
    · intro st srv u
      simp only [delete_user]
      split <;> rfl

/-- Witness for C3 at concrete valid invocations. -/
theorem C3_exactly_one_remote_call_witness :
    (account_stats exState faultRemote "disk").calls =
      [⟨"list_disk_usage", [sessionVal exState]⟩] ∧
    (delete_db exState faultRemote "mydb" "mysql").calls =
      [⟨"delete_db", [sessionVal exState, .rpc (.vstr "mydb"),
        .rpc (.vstr "mysql")]⟩] ∧
    (manage_db exState faultRemote "bob" "mydb" "mysql" "make_owner").calls =
      [⟨"make_user_owner_of_db", [sessionVal exState, .rpc (.vstr "bob"),
        .rpc (.vstr "mydb"), .rpc (.vstr "mysql")]⟩] ∧
    (create_db_user exState faultRemote "bob" "bash" ["extra"]).calls =
      [⟨"create_user", [sessionVal exState, .rpc (.vstr "bob"),
        .rpc (.vstr "bash"), .rpc (.vlist [.vstr "extra"])]⟩] ∧
    (create_mailbox exState faultRemote "inbox" true false "" false "").calls =
      [⟨"create_mailbox", createMailboxArgs exState "inbox" true false "" false ""⟩] := by
  refine ⟨C3_exactly_one_remote_call.2.2.1 exState faultRemote "disk"
      "list_disk_usage" rfl,
    C3_exactly_one_remote_call.2.2.2.2.2.2.2.2.1 exState faultRemote "mydb"
      "mysql" ?_,
    C3_exactly_one_remote_call.2.2.2.2.2.2.2.2.2.2.1 exState faultRemote "bob"
      "mydb" "mysql" "make_owner" "make_user_owner_of_db" ?_ rfl,
    C3_exactly_one_remote_call.2.2.2.2.2.2.2.2.2.2.2.1 exState faultRemote
      "bob" "bash" ["extra"] ?_,
    C3_exactly_one_remote_call.2.2.2.1 exState faultRemote "inbox" true false
      "" false "" rfl⟩ <;> simp [exState]

/-- C8: with complete credentials the constructor issues exactly one remote
login call, carrying the stored username, password, target_server and api
version 2, and when the remote login result is a pair its first component
is stored in session_id of the constructed object. -/
theorem C8_init_authenticates_once (cfg : ConfigFile) (srv : Remote)
    (u p t : String) (hu : u ≠ "") (hp : p ≠ "") (ht : t ≠ "") :
    (WebFactionBase_init cfg srv u p t).calls =
      [⟨"login", [.rpc (.vstr u), .rpc (.vstr p), .rpc (.vstr t),
        .rpc (.vint 2)]⟩] ∧
    (∀ sid account,
      srv "login" [.rpc (.vstr u), .rpc (.vstr p), .rpc (.vstr t),
        .rpc (.vint 2)] = .ok (.vlist [sid, account]) →
      ∃ stf, (WebFactionBase_init cfg srv u p t).result = .ok stf ∧
        stf.session_id = some sid ∧ stf.username = u ∧ stf.password = p ∧
        stf.target_server = t ∧ stf.api_version = 2) := by
  constructor
  · simp only [WebFactionBase_init, initFinish, login, loginArgs, initialState]
    simp [hu, hp, ht]
    (repeat' split) <;> simp
  · intro sid account h
    simp only [WebFactionBase_init, initFinish, login, loginArgs, initialState]
    simp [hu, hp, ht, h]

/-- Witness for C8 at a concrete successful construction. -/
theorem C8_init_authenticates_once_witness :
    (WebFactionBase_init none loginOkRemote "alice" "pw123" "Web100").calls =
      [⟨"login", [.rpc (.vstr "alice"), .rpc (.vstr "pw123"),
        .rpc (.vstr "Web100"), .rpc (.vint 2)]⟩] ∧
    (∃ stf, (WebFactionBase_init none loginOkRemote "alice" "pw123"
        "Web100").result = .ok stf ∧
      stf.session_id = some (.vstr "sess") ∧ stf.username = "alice" ∧
      stf.password = "pw123" ∧ stf.target_server = "Web100" ∧
      stf.api_version = 2) := by
  have h := C8_init_authenticates_once none loginOkRemote "alice" "pw123"
    "Web100" (by decide) (by decide) (by decide)
  exact ⟨h.1, h.2 (.vstr "sess") (.vdict []) rfl⟩

/-- C9: with incomplete credentials and no config file, the
NotImplementedError raised by get_config is not matched by the except
NotImplemented clause of __init__: construction terminates with that
exception, no config_error log event is produced and no login call is
issued. -/
theorem C9_missing_config_error_propagates (srv : Remote) (u p t : String)
    (h : u = "" ∨ p = "" ∨ t = "") :
    (∃ m, (WebFactionBase_init none srv u p t).result =
      .error (.notImplementedError m)) ∧
    (WebFactionBase_init none srv u p t).calls = [] ∧
    (WebFactionBase_init none srv u p t).logs = [] := by
  have hcond : (u == "" || p == "" || t == "") = true := by
    rcases h with h | h | h <;> simp [h]
  simp [WebFactionBase_init, hcond, get_config, exceptClauseNotImplementedMatches]

/-- Witness for C9: construction with no credentials and no config file. -/
theorem C9_missing_config_error_propagates_witness :
    (∃ m, (WebFactionBase_init none okRemote "" "" "").result =
      .error (.notImplementedError m)) ∧
    (WebFactionBase_init none okRemote "" "" "").calls = [] ∧
    (WebFactionBase_init none okRemote "" "" "").logs = [] :=
  C9_missing_config_error_propagates okRemote "" "" "" (Or.inl rfl)

/-- A fault that was handled as documented: the method returned False and an
exception log event was emitted. -/
def faultHandled (o : Outcome) : Prop :=
  o.result = .ok pyFalse ∧ ∃ m, LogEvent.exception m ∈ o.logs

/-- C1 as stated is false: login has no try/except, so at a remote that
faults, the Fault propagates out of login and False is not returned; and
in system the Fault is caught but the handler raises KeyError while
formatting its log message, so nothing is logged and False is not
returned there either. -/
theorem C1_counterexample :
    (login exState faultRemote).result = .error (.fault exFault) ∧
    (login exState faultRemote).result ≠ .ok pyFalse ∧
    (system exState faultRemote "ls").result = .error (.keyError "command") ∧
    (system exState faultRemote "ls").logs = [] := by
  have h1 : (login exState faultRemote).result = .error (.fault exFault) := rfl
  refine ⟨h1, ?_, rfl, rfl⟩
  rw [h1]
  simp [pyFalse]

/-- C1 amended: for account_stats, create_mailbox, delete_mailbox, both
create_db_user definitions, change_db_user_password, delete_db_user,
delete_db, enable_addon, manage_db and delete_user, a Fault raised by the
remote procedure is caught inside the method, an exception is logged and
the method returns False; login has no handler, so the Fault propagates;
in system the Fault is caught but the handler raises KeyError (the format
keyword commad does not match the placeholder command), so no exception
is logged and False is not returned. -/
theorem C1_amended_fault_handling :
    (∀ st srv action proc f, List.lookup action accountStatsOperations = some proc →
      srv proc [sessionVal st] = .error f →
      faultHandled (account_stats st srv action)) ∧
    (∀ st srv mailbox esp ds srf ump mp f, (ump && mp == "") = false →
      srv "create_mailbox" (createMailboxArgs st mailbox esp ds srf ump mp) =
        .error f →
      faultHandled (create_mailbox st srv mailbox esp ds srf ump mp)) ∧
    (∀ st srv mailbox f,
      srv "delete_mailbox" [sessionVal st, .rpc (.vstr mailbox)] = .error f →
      faultHandled (delete_mailbox st srv mailbox)) ∧
    (∀ st srv pw u p t e f, (e && pw p) = false → t ∈ st.valid_db_types →
      srv "create_db_user" [sessionVal st, .rpc (.vstr u), .rpc (.vstr p),
        .rpc (.vstr t)] = .error f →
      faultHandled (create_db_user_first st srv pw u p t e)) ∧
    (∀ st srv pw u p t e f, (e && pw p) = false → t ∈ st.valid_db_types →
      srv "change_db_user_password" [sessionVal st, .rpc (.vstr u),
        .rpc (.vstr p), .rpc (.vstr t)] = .error f →
      faultHandled (change_db_user_password st srv pw u p t e)) ∧
    (∀ st srv u t f, t ∈ st.valid_db_types →
      srv "delete_db_user" [sessionVal st, .rpc (.vstr u), .rpc (.vstr t)] =
        .error f →
      faultHandled (delete_db_user st srv u t)) ∧
    (∀ st srv d t f, t ∈ st.valid_db_types →
      srv "delete_db" [sessionVal st, .rpc (.vstr d), .rpc (.vstr t)] =
        .error f →
      faultHandled (delete_db st srv d t)) ∧
    (∀ st srv d a f, a ∈ st.valid_addons →
      srv "enable_addon" [sessionVal st, .rpc (.vstr d),
        .rpc (.vstr "postgresql"), .rpc (.vstr a)] = .error f →
      faultHandled (enable_addon st srv d a)) ∧
    (∀ st srv u d t a proc f, t ∈ st.valid_db_types →
      List.lookup a manageDbOperations = some proc →
      srv proc [sessionVal st, .rpc (.vstr u), .rpc (.vstr d),
        .rpc (.vstr t)] = .error f →
      faultHandled (manage_db st srv u d t a)) ∧
    (∀ st srv u s g f, s ∈ st.valid_shells →
      srv "create_user" [sessionVal st, .rpc (.vstr u), .rpc (.vstr s),
        .rpc (.vlist (g.map RpcValue.vstr))] = .error f →
      faultHandled (create_db_user st srv u s g)) ∧
    (∀ st srv u f,
      srv "delete_user" [sessionVal st, .rpc (.vstr u)] = .error f →
      faultHandled (delete_user st srv u)) ∧
    (∀ st srv f,
      srv "login" [.rpc (.vstr st.username), .rpc (.vstr st.password),
        .rpc (.vstr st.target_server), .rpc (.vint st.api_version)] = .error f →
      (login st srv).result = .error (.fault f)) ∧
    (∀ st srv cmd f,
      srv "system" [sessionVal st, .rpc (.vstr cmd)] = .error f →
      (system st srv cmd).result = .error (.keyError "command") ∧
      (system st srv cmd).logs = []) := by
  refine ⟨?_, ?_, ?_, ?_, ?_, ?_, ?_, ?_, ?_, ?_, ?_, ?_, ?_⟩
  · intro st srv action proc f h hf
    simp [faultHandled, account_stats, h, hf]
  · intro st srv mailbox esp ds srf ump mp f h hf
    simp [faultHandled, create_mailbox, h, hf]
  · intro st srv mailbox f hf
    simp [faultHandled, delete_mailbox, hf]
  · intro st srv pw u p t e f hw ht hf
    simp [faultHandled, create_db_user_first, hw, ht, hf]
  · intro st srv pw u p t e f hw ht hf
    simp [faultHandled, change_db_user_password, hw, ht, hf]
  · intro st srv u t f ht hf
    simp [faultHandled, delete_db_user, ht, hf]
  · intro st srv d t f ht hf
    simp [faultHandled, delete_db, ht, hf]
  · intro st srv d a f ha hf
    simp [faultHandled, enable_addon, ha, hf]
  · intro st srv u d t a proc f ht h hf
    simp [faultHandled, manage_db, ht, h, hf]
  · intro st srv u s g f hs hf
    simp [faultHandled, create_db_user, hs, hf]
  · intro st srv u f hf
    simp [faultHandled, delete_user, hf]
  · intro st srv f hf
    simp [login, loginArgs, hf]
  · intro st srv cmd f hf
    simp [system, hf]

/-- Witness for the amended C1 at a remote that faults on every call. -/
theorem C1_amended_fault_handling_witness :
    faultHandled (account_stats exState faultRemote "disk") ∧
    faultHandled (delete_mailbox exState faultRemote "inbox") ∧
    faultHandled (delete_user exState faultRemote "bob") ∧
    faultHandled (create_db_user exState faultRemote "bob" "bash" []) ∧
    (login exState faultRemote).result = .error (.fault exFault) ∧
    (system exState faultRemote "ls").result = .error (.keyError "command") := by
  refine ⟨C1_amended_fault_handling.1 exState faultRemote "disk"
      "list_disk_usage" exFault rfl rfl,
    C1_amended_fault_handling.2.2.1 exState faultRemote "inbox" exFault rfl,
    (C1_amended_fault_handling.2.2.2.2.2.2.2.2.2.2.1) exState faultRemote
      "bob" exFault rfl,
    (C1_amended_fault_handling.2.2.2.2.2.2.2.2.2.1) exState faultRemote
      "bob" "bash" [] exFault ?_ rfl,
    (C1_amended_fault_handling.2.2.2.2.2.2.2.2.2.2.2.1) exState faultRemote
      exFault rfl,
    ((C1_amended_fault_handling.2.2.2.2.2.2.2.2.2.2.2.2) exState faultRemote
      "ls" exFault rfl).1⟩
  simp [exState]

/-- C4 as stated is false: at a remote whose calls succeed with the string
value token, change_db_user_password returns a locally constructed
WebFactionDBUser rather than the remote result, and system returns None
rather than the remote result. -/
theorem C4_counterexample :
    (change_db_user_password exState okRemote neverWeak "bob" "pw" "mysql"
      true).result = .ok (.dbUser ⟨"bob", "pw", "mysql"⟩) ∧
    (change_db_user_password exState okRemote neverWeak "bob" "pw" "mysql"
      true).result ≠ .ok (.rpc (.vstr "token")) ∧
    (system exState okRemote "ls").result = .ok .pynone ∧
    (system exState okRemote "ls").result ≠ .ok (.rpc (.vstr "token")) := by
  have h1 : (change_db_user_password exState okRemote neverWeak "bob" "pw"
      "mysql" true).result = .ok (.dbUser ⟨"bob", "pw", "mysql"⟩) := by
    simp [change_db_user_password, exState, okRemote, neverWeak]
  have h2 : (system exState okRemote "ls").result = .ok .pynone := rfl
  refine ⟨h1, ?_, h2, ?_⟩
  · rw [h1]; simp
  · rw [h2]; simp

/-- C4 amended: account_stats, delete_mailbox, delete_db_user, delete_db,
enable_addon, manage_db, the effective (shell-user) create_db_user and
delete_user return the remote result on success; system returns None on
success, create_mailbox returns None on success provided the result
struct carries a password key, and the first create_db_user definition
and change_db_user_password return a locally constructed
WebFactionDBUser built from their arguments. -/
theorem C4_amended_success_returns :
    (∀ st srv action proc v, List.lookup action accountStatsOperations = some proc →
      srv proc [sessionVal st] = .ok v →
      (account_stats st srv action).result = .ok (.rpc v)) ∧
    (∀ st srv mailbox v,
      srv "delete_mailbox" [sessionVal st, .rpc (.vstr mailbox)] = .ok v →
      (delete_mailbox st srv mailbox).result = .ok (.rpc v)) ∧
    (∀ st srv u t v, t ∈ st.valid_db_types →
      srv "delete_db_user" [sessionVal st, .rpc (.vstr u), .rpc (.vstr t)] =
        .ok v →
      (delete_db_user st srv u t).result = .ok (.rpc v)) ∧
    (∀ st srv d t v, t ∈ st.valid_db_types →
      srv "delete_db" [sessionVal st, .rpc (.vstr d), .rpc (.vstr t)] = .ok v →
      (delete_db st srv d t).result = .ok (.rpc v)) ∧
    (∀ st srv d a v, a ∈ st.valid_addons →
      srv "enable_addon" [sessionVal st, .rpc (.vstr d),
        .rpc (.vstr "postgresql"), .rpc (.vstr a)] = .ok v →
      (enable_addon st srv d a).result = .ok (.rpc v)) ∧
    (∀ st srv u d t a proc v, t ∈ st.valid_db_types →
      List.lookup a manageDbOperations = some proc →
      srv proc [sessionVal st, .rpc (.vstr u), .rpc (.vstr d),
        .rpc (.vstr t)] = .ok v →
      (manage_db st srv u d t a).result = .ok (.rpc v)) ∧
    (∀ st srv u s g v, s ∈ st.valid_shells →
      srv "create_user" [sessionVal st, .rpc (.vstr u), .rpc (.vstr s),
        .rpc (.vlist (g.map RpcValue.vstr))] = .ok v →
      (create_db_user st srv u s g).result = .ok (.rpc v)) ∧
    (∀ st srv u v, srv "delete_user" [sessionVal st, .rpc (.vstr u)] = .ok v →
      (delete_user st srv u).result = .ok (.rpc v)) ∧
    (∀ st srv cmd v, srv "system" [sessionVal st, .rpc (.vstr cmd)] = .ok v →
      (system st srv cmd).result = .ok .pynone) ∧
    (∀ st srv mailbox esp ds srf ump mp kvs pw, (ump && mp == "") = false →
      srv "create_mailbox" (createMailboxArgs st mailbox esp ds srf ump mp) =
        .ok (.vdict kvs) →
      List.lookup "password" kvs = some pw →
      (create_mailbox st srv mailbox esp ds srf ump mp).result = .ok .pynone) ∧
    (∀ st srv pw u p t e v, (e && pw p) = false → t ∈ st.valid_db_types →
      srv "create_db_user" [sessionVal st, .rpc (.vstr u), .rpc (.vstr p),
        .rpc (.vstr t)] = .ok v →
      (create_db_user_first st srv pw u p t e).result =
        .ok (.dbUser ⟨u, p, t⟩)) ∧
    (∀ st srv pw u p t e v, (e && pw p) = false → t ∈ st.valid_db_types →
      srv "change_db_user_password" [sessionVal st, .rpc (.vstr u),
        .rpc (.vstr p), .rpc (.vstr t)] = .ok v →
      (change_db_user_password st srv pw u p t e).result =
        .ok (.dbUser ⟨u, p, t⟩)) := by
  refine ⟨?_, ?_, ?_, ?_, ?_, ?_, ?_, ?_, ?_, ?_, ?_, ?_⟩
  · intro st srv action proc v h hv
    simp [account_stats, h, hv]
  · intro st srv mailbox v hv
    simp [delete_mailbox, hv]
  · intro st srv u t v ht hv
    simp [delete_db_user, ht, hv]
  · intro st srv d t v ht hv
    simp [delete_db, ht, hv]
  · intro st srv d a v ha hv
    simp [enable_addon, ha, hv]
  · intro st srv u d t a proc v ht h hv
    simp [manage_db, ht, h, hv]
  · intro st srv u s g v hs hv
    simp [create_db_user, hs, hv]
  · intro st srv u v hv
    simp [delete_user, hv]
  · intro st srv cmd v hv
    simp [system, hv]
  · intro st srv mailbox esp ds srf ump mp kvs pw h hv hpw
    simp [create_mailbox, h, hv, hpw]
  · intro st srv pw u p t e v hw ht hv
    simp [create_db_user_first, hw, ht, hv]
  · intro st srv pw u p t e v hw ht hv
    simp [change_db_user_password, hw, ht, hv]

/-- Witness for the amended C4 at a remote that succeeds on every call. -/
theorem C4_amended_success_returns_witness :
    (delete_user exState okRemote "bob").result = .ok (.rpc (.vstr "token")) ∧
    (account_stats exState okRemote "disk").result = .ok (.rpc (.vstr "token")) ∧
    (delete_db exState okRemote "mydb" "mysql").result =
      .ok (.rpc (.vstr "token")) ∧
    (system exState okRemote "ls").result = .ok .pynone ∧
    (create_db_user_first exState okRemote neverWeak "bob" "pw" "mysql"
      true).result = .ok (.dbUser ⟨"bob", "pw", "mysql"⟩) := by
  refine ⟨C4_amended_success_returns.2.2.2.2.2.2.2.1 exState okRemote "bob"
      (.vstr "token") rfl,
    C4_amended_success_returns.1 exState okRemote "disk" "list_disk_usage"
      (.vstr "token") rfl rfl,
    C4_amended_success_returns.2.2.2.1 exState okRemote "mydb" "mysql"
      (.vstr "token") ?_ rfl,
    C4_amended_success_returns.2.2.2.2.2.2.2.2.1 exState okRemote "ls"
      (.vstr "token") rfl,
    C4_amended_success_returns.2.2.2.2.2.2.2.2.2.2.1 exState okRemote
      neverWeak "bob" "pw" "mysql" true (.vstr "token") rfl ?_ rfl⟩ <;>
    simp [exState]
